import Mathlib

/-!
# Verification of `here_xyz.py` (Strava Analysis Tool)

A shallow embedding of `src/here_xyz.py`, which resolves or creates a HERE
interactive map layer (IML) and uploads GeoJSON activity data to it.

The remote API (lookup, create, search, delete, write), the credentials
loader and the local file system are modelled by an environment `Env` whose
fields give the outcome of each external call.  The two functions of the
source, `_get_here_iml` and `upload_geo_data`, are embedded as functions
from `Env` to a trace of the external calls they issue (in order) together
with a final outcome: normal return, `sys.exit` with a message, or an
uncaught Python exception propagating out.
-/

/-- JSON-like values, as produced by `geojson.load`.  The `geojson` library
returns `dict` subclasses for objects (a parsed feature collection is an
object with keys `type` and `features`), so Python truthiness of the parsed
value is the truthiness of the underlying container. -/
inductive Json where
  | null
  | bool (b : Bool)
  | num (n : Int)
  | str (s : String)
  | arr (elems : List Json)
  | obj (entries : List (String × Json))

/-- Python truthiness of a parsed JSON value: `None`, `False`, `0`, the empty
string, the empty list and the empty dict are falsy; everything else is
truthy.  This is the test performed by `if geo_data:` on line 128 of the
source. -/
def pyTruthy : Json → Bool
  | Json.null => false
  | Json.bool b => b
  | Json.num n => n != 0
  | Json.str s => s != ""
  | Json.arr elems => !elems.isEmpty
  | Json.obj entries => !entries.isEmpty

/-- The JSON object `geojson.load` returns for a GeoJSON feature collection
with the given list of features: a dict with the keys `type` and
`features`. -/
def fcJson (features : List Json) : Json :=
  Json.obj [("type", Json.str "FeatureCollection"), ("features", Json.arr features)]

/-- A remote feature as returned by `search_features(...).to_geojson()`:
the source reads `feature` and accesses its server-assigned `id`. -/
structure Feature where
  id : String
  payload : Json

/-- Python exceptions that can propagate out of the embedded code. -/
inductive PyErr where
  /-- `FileNotFoundError` from `geo_data_file_path.open` when the file is absent. -/
  | fileNotFound
  /-- The decode error `geojson.load` raises when the file is empty or not valid JSON. -/
  | jsonDecodeError
  /-- Any error raised by a remote HERE call, carrying its message. -/
  | remoteError (msg : String)
deriving DecidableEq, Repr

/-- Opaque handle for an `IML` object returned by the `xyzspaces` library. -/
structure IML where
  handleId : Nat
deriving DecidableEq, Repr

/-- What happens when the local geo data file is opened and parsed. -/
inductive FileOutcome where
  /-- The file does not exist: `open` raises `FileNotFoundError`. -/
  | absent
  /-- The file opens but `geojson.load` raises (for example the file is empty). -/
  | unparseable
  /-- The file opens and parses to the value `v`. -/
  | parsed (v : Json)

/-- One external call issued by the embedded code, recorded in program order. -/
inductive Event where
  /-- `IML.from_catalog_hrn_and_layer_id(...)` (line 46). -/
  | lookupCall
  /-- `IML.new(...)` (line 68). -/
  | createCall
  /-- `iml.layer.search_features(...)` (line 107). -/
  | searchCall
  /-- `iml.layer.delete_features(chunk)` (line 122). -/
  | deleteCall (chunk : List String)
  /-- `iml.layer.write_features(features=geo_data)` (line 133). -/
  | writeCall (data : Json)
  /-- `geo_data_file_path.open(...)` (line 125). -/
  | openFileCall

/-- Final outcome of running the embedded code. -/
inductive Outcome (α : Type) where
  /-- Normal return with value `a`. -/
  | ok (a : α)
  /-- `sys.exit(msg)`: the process terminates printing `msg`. -/
  | sysExit (msg : String)
  /-- An uncaught Python exception propagates out. -/
  | raised (e : PyErr)

/-- Behaviour of the external world: the outcome of each external call the
source can make.  Each field corresponds to one call site. -/
structure Env where
  /-- `Credentials.from_credentials_file` (line 38): succeeds or raises. -/
  credsResult : Except PyErr Unit
  /-- `IML.from_catalog_hrn_and_layer_id` (line 46): a handle, or an exception
  with the given message. -/
  lookupResult : Except String IML
  /-- `IML.new` (line 68): a handle, or an exception with the given message. -/
  createResult : Except String IML
  /-- `iml.layer.search_features(...).to_geojson()` (line 107): the features of
  the returned collection, or an exception. -/
  searchResult : Except PyErr (List Feature)
  /-- `iml.layer.delete_features(chunk)` (line 122), per chunk. -/
  deleteResult : List String → Except PyErr Unit
  /-- `iml.layer.write_features(features=...)` (line 133), per payload. -/
  writeResult : Json → Except PyErr Unit
  /-- Opening and parsing the local geo data file (lines 125 and 126). -/
  file : FileOutcome

/-- Constant `HERE_CATALOG_ID` (line 22 of the source). -/
def HERE_CATALOG_ID : String := "strava-analysis-tool"

/-- Constant `HERE_LAYER_ID` (line 23 of the source). -/
def HERE_LAYER_ID : String := "strava-activity-data"

/-- Constant `HERE_FEATURE_IDS_CHUNK_SIZE` (line 24 of the source). -/
def HERE_FEATURE_IDS_CHUNK_SIZE : Nat := 100

/-- Python `range(start, stop, step)` for a nonnegative step, as a list.
For a positive step it enumerates `start + k * step` for every `k` with
`start + k * step < stop`. -/
def pyRange (start stop step : Nat) : List Nat :=
  if step = 0 then []
  else (List.range ((stop - start + step - 1) / step)).map (fun k => start + k * step)

/-- Python slice `l[i:j]` for nonnegative bounds (out-of-range bounds clamp). -/
def pySlice (l : List α) (i j : Nat) : List α :=
  (l.drop i).take (j - i)

/-- The chunking of lines 114 and 115 of the source:
`[feature_ids[i:i + n] for i in range(0, len(feature_ids), n)]`. -/
def pyChunks (n : Nat) (l : List α) : List (List α) :=
  (pyRange 0 l.length n).map (fun i => pySlice l i (i + n))

/-- Embedding of `_get_here_iml` (lines 27 to 83): load the credentials, try
to look up the existing layer; on any exception try to create the catalog and
layer; if that also raises, `sys.exit` with the creation error message. -/
def get_here_iml (env : Env) : List Event × Outcome IML :=
  match env.credsResult with
  | Except.error e => ([], Outcome.raised e)
  | Except.ok _ =>
    match env.lookupResult with
    | Except.ok iml => ([Event.lookupCall], Outcome.ok iml)
    | Except.error _ =>
      match env.createResult with
      | Except.ok iml => ([Event.lookupCall, Event.createCall], Outcome.ok iml)
      | Except.error msg =>
        ([Event.lookupCall, Event.createCall],
         Outcome.sysExit ("[ERROR]: HERE returned the following error: " ++ msg))

/-- The `for chunk in feature_ids_chunks` loop (lines 120 to 122): delete the
chunks sequentially; a failing delete raises and stops the loop. -/
def deleteChunks (env : Env) : List (List String) → List Event × Outcome Unit
  | [] => ([], Outcome.ok ())
  | chunk :: rest =>
    match env.deleteResult chunk with
    | Except.error e => ([Event.deleteCall chunk], Outcome.raised e)
    | Except.ok _ =>
      let r := deleteChunks env rest
      (Event.deleteCall chunk :: r.1, r.2)

/-- The `if refresh:` block (lines 105 to 122): search all remote features,
collect their ids, chunk them, and delete chunk by chunk. -/
def refreshPhase (env : Env) : List Event × Outcome Unit :=
  match env.searchResult with
  | Except.error e => ([Event.searchCall], Outcome.raised e)
  | Except.ok feature_collection =>
    let feature_ids := feature_collection.map Feature.id
    let feature_ids_chunks := pyChunks HERE_FEATURE_IDS_CHUNK_SIZE feature_ids
    let r := deleteChunks env feature_ids_chunks
    (Event.searchCall :: r.1, r.2)

/-- Lines 124 to 133: open the geo data file (raising if absent), parse it
with `geojson.load` (raising on invalid content), and if the parsed value is
truthy call `write_features` once with the whole value. -/
def uploadPhase (env : Env) : List Event × Outcome Unit :=
  match env.file with
  | FileOutcome.absent => ([Event.openFileCall], Outcome.raised PyErr.fileNotFound)
  | FileOutcome.unparseable => ([Event.openFileCall], Outcome.raised PyErr.jsonDecodeError)
  | FileOutcome.parsed geo_data =>
    if pyTruthy geo_data then
      match env.writeResult geo_data with
      | Except.ok _ =>
        ([Event.openFileCall, Event.writeCall geo_data], Outcome.ok ())
      | Except.error e =>
        ([Event.openFileCall, Event.writeCall geo_data], Outcome.raised e)
    else ([Event.openFileCall], Outcome.ok ())

/-- Embedding of `upload_geo_data` (lines 86 to 133): resolve the IML handle,
optionally purge the remote layer, then read the local file and upload. -/
def upload_geo_data (env : Env) (refresh : Bool) : List Event × Outcome Unit :=
  match get_here_iml env with
  | (t, Outcome.sysExit m) => (t, Outcome.sysExit m)
  | (t, Outcome.raised e) => (t, Outcome.raised e)
  | (t, Outcome.ok _) =>
    if refresh then
      let r := refreshPhase env
      match r.2 with
      | Outcome.ok _ =>
        let u := uploadPhase env
        (t ++ r.1 ++ u.1, u.2)
      | out => (t ++ r.1, out)
    else
      let u := uploadPhase env
      (t ++ u.1, u.2)

/-- The chunks passed to `delete_features`, in the order issued, read off a
trace. -/
def deleteCalls (t : List Event) : List (List String) :=
  t.filterMap (fun e => match e with | Event.deleteCall c => some c | _ => none)

/-- The payloads passed to `write_features`, in the order issued, read off a
trace. -/
def writeCalls (t : List Event) : List Json :=
  t.filterMap (fun e => match e with | Event.writeCall d => some d | _ => none)

/-- How many times `IML.new` was called in a trace. -/
def createCount (t : List Event) : Nat :=
  t.countP (fun e => match e with | Event.createCall => true | _ => false)

/-- How many times `search_features` was called in a trace. -/
def searchCount (t : List Event) : Nat :=
  t.countP (fun e => match e with | Event.searchCall => true | _ => false)

example : pyChunks 3 [1, 2, 3, 4, 5, 6, 7] = [[1, 2, 3], [4, 5, 6], [7]] := by decide

example : pyChunks 3 ([] : List Nat) = [] := by decide

example : pyChunks 3 [1, 2, 3, 4, 5, 6] = [[1, 2, 3], [4, 5, 6]] := by decide

/-- Chunking the empty identifier list produces no chunks. -/
theorem pyChunks_nil {α : Type} (n : Nat) : pyChunks n ([] : List α) = [] := by
  unfold pyChunks pyRange
  by_cases h : n = 0
  · simp [h]
  · have h2 : (n - 1) / n = 0 := Nat.div_eq_of_lt (by omega)
    simp [h, h2]

/-- Unfolding lemma: for a positive chunk size and a nonempty list, the
comprehension of lines 114 and 115 yields the first `n` elements as the head
chunk followed by the chunking of the rest. -/
theorem pyChunks_cons {α : Type} (n : Nat) (l : List α) (hn : 0 < n) (hl : l ≠ []) :
    pyChunks n l = l.take n :: pyChunks n (l.drop n) := by
  have hL : 0 < l.length := List.length_pos.mpr hl
  have hne : n ≠ 0 := Nat.pos_iff_ne_zero.mp hn
  have hcount : (l.length - 0 + n - 1) / n = (l.length - 1) / n + 1 := by
    have h1 : l.length - 0 + n - 1 = (l.length - 1) + n := by omega
    rw [h1, Nat.add_div_right _ hn]
  have hcount2 : ((l.drop n).length - 0 + n - 1) / n = (l.length - 1) / n := by
    rw [List.length_drop]
    rcases le_or_lt n l.length with h | h
    · have h1 : l.length - n - 0 + n - 1 = l.length - 1 := by omega
      rw [h1]
    · have h1 : l.length - n - 0 + n - 1 = n - 1 := by omega
      have h2 : (l.length - 1) / n = 0 := Nat.div_eq_of_lt (by omega)
      have h3 : (n - 1) / n = 0 := Nat.div_eq_of_lt (by omega)
      rw [h1, h2, h3]
  unfold pyChunks pyRange
  rw [if_neg hne, if_neg hne, hcount, hcount2, List.range_succ_eq_map]
  simp only [List.map_cons, List.map_map]
  refine congrArg₂ List.cons ?_ ?_
  · simp [pySlice]
  · apply List.map_congr_left
    intro k _
    simp only [Function.comp_apply, Nat.succ_eq_add_one]
    show pySlice l (0 + (k + 1) * n) (0 + (k + 1) * n + n)
       = pySlice (l.drop n) (0 + k * n) (0 + k * n + n)
    simp only [pySlice, List.drop_drop]
    have e2 : 0 + (k + 1) * n + n - (0 + (k + 1) * n) = n := by omega
    have e3 : 0 + k * n + n - (0 + k * n) = n := by omega
    have e4 : 0 + (k + 1) * n = n + (0 + k * n) := by ring
    rw [e2, e3, e4]

/-- The last chunk of a nonempty chunking is the trailing tail: a cons with
nonempty tail keeps the tail last element. -/
theorem getLast_cons_ne_nil {β : Type} (a : β) (r : List β) (h : r ≠ []) :
    (a :: r).getLast? = r.getLast? := by
  cases r with
  | nil => exact absurd rfl h
  | cons b t => exact List.getLast?_cons_cons

/-- The chunking of lines 114 and 115 with chunk size 100 produces
`ceil(N / 100)` chunks. -/
theorem chunk100_length {α : Type} (l : List α) :
    (pyChunks 100 l).length = (l.length + 100 - 1) / 100 := by
  by_cases hl : l = []
  · subst hl
    simp [pyChunks_nil]
  · have hL := List.length_pos.mpr hl
    rw [pyChunks_cons 100 l (by omega) hl]
    have ih := chunk100_length (l.drop 100)
    rw [List.length_cons, ih, List.length_drop]
    omega
termination_by l.length
decreasing_by
  rw [List.length_drop]
  omega

/-- Concatenating the chunks of lines 114 and 115 reproduces the identifier
list exactly. -/
theorem chunk100_flatten {α : Type} (l : List α) :
    (pyChunks 100 l).flatten = l := by
  by_cases hl : l = []
  · subst hl
    simp [pyChunks_nil]
  · have hL := List.length_pos.mpr hl
    rw [pyChunks_cons 100 l (by omega) hl]
    have ih := chunk100_flatten (l.drop 100)
    rw [List.flatten_cons, ih, List.take_append_drop]
termination_by l.length
decreasing_by
  rw [List.length_drop]
  omega

/-- Every chunk of lines 114 and 115 except the last has exactly 100
elements. -/
theorem chunk100_dropLast {α : Type} (l : List α) :
    ∀ c ∈ (pyChunks 100 l).dropLast, c.length = 100 := by
  by_cases hl : l = []
  · subst hl
    simp [pyChunks_nil]
  · have hL := List.length_pos.mpr hl
    rw [pyChunks_cons 100 l (by omega) hl]
    by_cases hd : l.drop 100 = []
    · rw [hd, pyChunks_nil]
      simp
    · have hdL : 0 < (l.drop 100).length := List.length_pos.mpr hd
      rw [List.length_drop] at hdL
      have ih := chunk100_dropLast (l.drop 100)
      have hcons := pyChunks_cons 100 (l.drop 100) (by omega) hd
      intro c hc
      rw [hcons, List.dropLast_cons₂] at hc
      rw [← hcons] at hc
      rcases List.mem_cons.mp hc with h | h
      · subst h
        rw [List.length_take]
        omega
      · exact ih c h
termination_by l.length
decreasing_by
  rw [List.length_drop]
  omega

/-- The last chunk of lines 114 and 115 has `N mod 100` elements when that is
nonzero and 100 elements otherwise (no last chunk exists for an empty
list). -/
theorem chunk100_getLast {α : Type} (l : List α) :
    ((pyChunks 100 l).getLast?).map List.length
      = if l.length = 0 then none
        else some (if l.length % 100 = 0 then 100 else l.length % 100) := by
  by_cases hl : l = []
  · subst hl
    simp [pyChunks_nil]
  · have hL := List.length_pos.mpr hl
    rw [pyChunks_cons 100 l (by omega) hl]
    by_cases hd : l.drop 100 = []
    · have h0 : l.length - 100 = 0 := by
        rw [← List.length_drop, hd]
        rfl
      rw [hd, pyChunks_nil, List.getLast?_singleton, Option.map_some', List.length_take]
      split_ifs with h1 h2
      · omega
      · simp only [Option.some.injEq]
        omega
      · simp only [Option.some.injEq]
        omega
    · have hdL : 0 < (l.drop 100).length := List.length_pos.mpr hd
      rw [List.length_drop] at hdL
      have ih := chunk100_getLast (l.drop 100)
      rw [getLast_cons_ne_nil _ _ (by rw [pyChunks_cons 100 (l.drop 100) (by omega) hd]; simp),
        ih, List.length_drop]
      split_ifs with h1 h2 h3 h4 h5 <;> first
        | rfl
        | omega
        | (simp only [Option.some.injEq]; omega)
termination_by l.length
decreasing_by
  rw [List.length_drop]
  omega

theorem deleteCalls_append (s t : List Event) :
    deleteCalls (s ++ t) = deleteCalls s ++ deleteCalls t := by
  unfold deleteCalls
  exact List.filterMap_append s t _

theorem writeCalls_append (s t : List Event) :
    writeCalls (s ++ t) = writeCalls s ++ writeCalls t := by
  unfold writeCalls
  exact List.filterMap_append s t _

theorem searchCount_append (s t : List Event) :
    searchCount (s ++ t) = searchCount s + searchCount t := by
  unfold searchCount
  exact List.countP_append _ s t

/-- The resolver only ever issues lookup and creation calls. -/
theorem get_here_iml_trace (env : Env) :
    (get_here_iml env).1 = []
    ∨ (get_here_iml env).1 = [Event.lookupCall]
    ∨ (get_here_iml env).1 = [Event.lookupCall, Event.createCall] := by
  unfold get_here_iml
  cases hc : env.credsResult with
  | error e => exact Or.inl rfl
  | ok u =>
    cases hl : env.lookupResult with
    | ok iml => exact Or.inr (Or.inl rfl)
    | error e =>
      cases hcr : env.createResult with
      | ok iml => exact Or.inr (Or.inr rfl)
      | error msg => exact Or.inr (Or.inr rfl)

theorem deleteCalls_get_here_iml (env : Env) : deleteCalls (get_here_iml env).1 = [] := by
  rcases get_here_iml_trace env with h | h | h <;> rw [h] <;> rfl

theorem writeCalls_get_here_iml (env : Env) : writeCalls (get_here_iml env).1 = [] := by
  rcases get_here_iml_trace env with h | h | h <;> rw [h] <;> rfl

theorem searchCount_get_here_iml (env : Env) : searchCount (get_here_iml env).1 = 0 := by
  rcases get_here_iml_trace env with h | h | h <;> rw [h] <;> rfl

/-- The upload phase issues no delete call. -/
theorem deleteCalls_uploadPhase (env : Env) : deleteCalls (uploadPhase env).1 = [] := by
  unfold uploadPhase
  cases hf : env.file with
  | absent => rfl
  | unparseable => rfl
  | parsed v =>
    cases hb : pyTruthy v
    · simp only [hb, Bool.false_eq_true, if_false]
      rfl
    · simp only [hb, if_true]
      cases hw : env.writeResult v <;> rfl

/-- The upload phase issues no search call. -/
theorem searchCount_uploadPhase (env : Env) : searchCount (uploadPhase env).1 = 0 := by
  unfold uploadPhase
  cases hf : env.file with
  | absent => rfl
  | unparseable => rfl
  | parsed v =>
    cases hb : pyTruthy v
    · simp only [hb, Bool.false_eq_true, if_false]
      rfl
    · simp only [hb, if_true]
      cases hw : env.writeResult v <;> rfl

/-- When the resolver finds the layer, the run with `refresh = False` is the
lookup event followed by the upload phase. -/
theorem upload_norefresh_decompose (env : Env) (iml : IML)
    (hc : env.credsResult = Except.ok ())
    (hl : env.lookupResult = Except.ok iml) :
    upload_geo_data env false
      = ([Event.lookupCall] ++ (uploadPhase env).1, (uploadPhase env).2) := by
  have hg : get_here_iml env = ([Event.lookupCall], Outcome.ok iml) := by
    unfold get_here_iml
    rw [hc, hl]
  unfold upload_geo_data
  rw [hg]
  rfl

/-- Unfolding the refresh block when the search succeeds. -/
theorem refreshPhase_eq (env : Env) (fs : List Feature)
    (hs : env.searchResult = Except.ok fs) :
    refreshPhase env
      = (Event.searchCall
          :: (deleteChunks env (pyChunks HERE_FEATURE_IDS_CHUNK_SIZE (fs.map Feature.id))).1,
         (deleteChunks env (pyChunks HERE_FEATURE_IDS_CHUNK_SIZE (fs.map Feature.id))).2) := by
  unfold refreshPhase
  rw [hs]

/-- When every chunk deletes cleanly, the loop issues one delete call per
chunk, in order, and returns normally. -/
theorem deleteChunks_all_ok (env : Env) (cs : List (List String))
    (h : ∀ c ∈ cs, env.deleteResult c = Except.ok ()) :
    deleteChunks env cs = (cs.map Event.deleteCall, Outcome.ok ()) := by
  induction cs with
  | nil => rfl
  | cons c rest ih =>
    have hc : env.deleteResult c = Except.ok () := h c (List.mem_cons_self c rest)
    have hrest : ∀ x ∈ rest, env.deleteResult x = Except.ok () :=
      fun x hx => h x (List.mem_cons_of_mem c hx)
    simp only [deleteChunks]
    rw [hc, ih hrest]
    rfl

/-- A failing chunk stops the loop: the deletes up to and including the failing
chunk are issued, nothing after it, and the error propagates. -/
theorem deleteChunks_fail (env : Env) (pre : List (List String)) (c : List String)
    (post : List (List String)) (err : PyErr)
    (hpre : ∀ x ∈ pre, env.deleteResult x = Except.ok ())
    (hc : env.deleteResult c = Except.error err) :
    deleteChunks env (pre ++ c :: post)
      = (pre.map Event.deleteCall ++ [Event.deleteCall c], Outcome.raised err) := by
  induction pre with
  | nil =>
    rw [List.nil_append]
    simp only [deleteChunks]
    rw [hc]
    rfl
  | cons p rest ih =>
    have hp : env.deleteResult p = Except.ok () := hpre p (List.mem_cons_self p rest)
    have hrest : ∀ x ∈ rest, env.deleteResult x = Except.ok () :=
      fun x hx => hpre x (List.mem_cons_of_mem p hx)
    rw [List.cons_append]
    simp only [deleteChunks]
    rw [hp, ih hrest]
    rfl

/-- Reading the issued chunks back off a pure sequence of delete events. -/
theorem deleteCalls_map_deleteCall (cs : List (List String)) :
    deleteCalls (cs.map Event.deleteCall) = cs := by
  induction cs with
  | nil => rfl
  | cons c rest ih =>
    unfold deleteCalls at *
    rw [List.map_cons, List.filterMap_cons]
    simp only []
    rw [ih]

/-- A pure sequence of delete events contains no write call. -/
theorem writeCalls_map_deleteCall (cs : List (List String)) :
    writeCalls (cs.map Event.deleteCall) = [] := by
  induction cs with
  | nil => rfl
  | cons c rest ih =>
    unfold writeCalls at *
    rw [List.map_cons, List.filterMap_cons]
    simp only []
    rw [ih]

/-- When the resolver found the layer and the whole refresh purge succeeds,
the run with `refresh = True` is lookup, search, one delete per chunk, then
the upload phase. -/
theorem upload_refresh_decompose (env : Env) (iml : IML) (fs : List Feature)
    (hc : env.credsResult = Except.ok ())
    (hl : env.lookupResult = Except.ok iml)
    (hs : env.searchResult = Except.ok fs)
    (hdel : ∀ c ∈ pyChunks HERE_FEATURE_IDS_CHUNK_SIZE (fs.map Feature.id),
        env.deleteResult c = Except.ok ()) :
    upload_geo_data env true
      = (Event.lookupCall :: Event.searchCall
          :: ((pyChunks HERE_FEATURE_IDS_CHUNK_SIZE (fs.map Feature.id)).map Event.deleteCall
              ++ (uploadPhase env).1),
         (uploadPhase env).2) := by
  have hg : get_here_iml env = ([Event.lookupCall], Outcome.ok iml) := by
    unfold get_here_iml
    rw [hc, hl]
  have hr : refreshPhase env
      = (Event.searchCall
          :: (pyChunks HERE_FEATURE_IDS_CHUNK_SIZE (fs.map Feature.id)).map Event.deleteCall,
         Outcome.ok ()) := by
    rw [refreshPhase_eq env fs hs, deleteChunks_all_ok env _ hdel]
  unfold upload_geo_data
  rw [hg]
  show (let r := refreshPhase env;
        match r.2 with
        | Outcome.ok _ =>
          let u := uploadPhase env
          ([Event.lookupCall] ++ r.1 ++ u.1, u.2)
        | out => ([Event.lookupCall] ++ r.1, out)) = _
  rw [hr]
  rfl

/-- With a truthy parsed value the upload phase opens the file and issues
exactly one write call carrying the whole parsed value. -/
theorem uploadPhase_parsed_truthy (env : Env) (v : Json)
    (hf : env.file = FileOutcome.parsed v) (ht : pyTruthy v = true) :
    (uploadPhase env).1 = [Event.openFileCall, Event.writeCall v] := by
  unfold uploadPhase
  rw [hf]
  simp only [ht, if_true]
  cases hw : env.writeResult v <;> rfl

/-- With a falsy parsed value the upload phase opens the file, skips the
write, and returns normally. -/
theorem uploadPhase_parsed_falsy (env : Env) (v : Json)
    (hf : env.file = FileOutcome.parsed v) (ht : pyTruthy v = false) :
    uploadPhase env = ([Event.openFileCall], Outcome.ok ()) := by
  unfold uploadPhase
  rw [hf]
  simp only [ht, Bool.false_eq_true, if_false]

/-- An absent file makes the upload phase raise `FileNotFoundError` with no
write call. -/
theorem uploadPhase_absent (env : Env) (hf : env.file = FileOutcome.absent) :
    uploadPhase env = ([Event.openFileCall], Outcome.raised PyErr.fileNotFound) := by
  unfold uploadPhase
  rw [hf]

/-- An empty or malformed file makes the upload phase raise the decode error
with no write call. -/
theorem uploadPhase_unparseable (env : Env) (hf : env.file = FileOutcome.unparseable) :
    uploadPhase env = ([Event.openFileCall], Outcome.raised PyErr.jsonDecodeError) := by
  unfold uploadPhase
  rw [hf]

/-- When a delete chunk fails during the refresh purge, the run stops right
after the failing delete: lookup, search, the deletes up to and including the
failing chunk, and the raised error. -/
theorem upload_refresh_fail_decompose (env : Env) (iml : IML) (fs : List Feature)
    (pre : List (List String)) (c : List String) (post : List (List String)) (err : PyErr)
    (hc : env.credsResult = Except.ok ())
    (hl : env.lookupResult = Except.ok iml)
    (hs : env.searchResult = Except.ok fs)
    (hchunks : pyChunks HERE_FEATURE_IDS_CHUNK_SIZE (fs.map Feature.id) = pre ++ c :: post)
    (hpre : ∀ x ∈ pre, env.deleteResult x = Except.ok ())
    (herr : env.deleteResult c = Except.error err) :
    upload_geo_data env true
      = (Event.lookupCall :: Event.searchCall
          :: (pre.map Event.deleteCall ++ [Event.deleteCall c]),
         Outcome.raised err) := by
  have hg : get_here_iml env = ([Event.lookupCall], Outcome.ok iml) := by
    unfold get_here_iml
    rw [hc, hl]
  have hr : refreshPhase env
      = (Event.searchCall :: (pre.map Event.deleteCall ++ [Event.deleteCall c]),
         Outcome.raised err) := by
    rw [refreshPhase_eq env fs hs, hchunks, deleteChunks_fail env pre c post err hpre herr]
  unfold upload_geo_data
  rw [hg]
  show (let r := refreshPhase env;
        match r.2 with
        | Outcome.ok _ =>
          let u := uploadPhase env
          ([Event.lookupCall] ++ r.1 ++ u.1, u.2)
        | out => ([Event.lookupCall] ++ r.1, out)) = _
  rw [hr]
  rfl

/-- A benign world: credentials load, the lookup finds the layer, the remote
layer is empty, every remote call succeeds, and the local file parses to an
empty feature collection. -/
def envBase : Env where
  credsResult := Except.ok ()
  lookupResult := Except.ok ⟨0⟩
  createResult := Except.ok ⟨1⟩
  searchResult := Except.ok []
  deleteResult := fun _ => Except.ok ()
  writeResult := fun _ => Except.ok ()
  file := FileOutcome.parsed (fcJson [])

/-- `envBase` with both the lookup and the creation failing. -/
def envCreateFail : Env :=
  { envBase with
    lookupResult := Except.error "lookup failed"
    createResult := Except.error "creation failed" }

/-- `envBase` with an absent local geo data file. -/
def envAbsent : Env :=
  { envBase with file := FileOutcome.absent }

/-- `envBase` with a local file parsing to JSON `null` (a falsy value). -/
def envFalsy : Env :=
  { envBase with file := FileOutcome.parsed Json.null }

/-- C1: chunking an identifier sequence of length N as on lines 114 and 115
yields ceil(N / 100) contiguous batches, each of size 100 except possibly the
last (size N mod 100 when nonzero, else 100), and concatenating the batches
reproduces the sequence. -/
theorem upload_chunking_partitions (l : List String) :
    (pyChunks HERE_FEATURE_IDS_CHUNK_SIZE l).length = (l.length + 99) / 100
    ∧ (∀ c ∈ (pyChunks HERE_FEATURE_IDS_CHUNK_SIZE l).dropLast, c.length = 100)
    ∧ ((pyChunks HERE_FEATURE_IDS_CHUNK_SIZE l).getLast?).map List.length
        = (if l.length = 0 then none
           else some (if l.length % 100 = 0 then 100 else l.length % 100))
    ∧ (pyChunks HERE_FEATURE_IDS_CHUNK_SIZE l).flatten = l := by
  have h : HERE_FEATURE_IDS_CHUNK_SIZE = 100 := rfl
  rw [h]
  refine ⟨?_, chunk100_dropLast l, chunk100_getLast l, chunk100_flatten l⟩
  rw [chunk100_length l]
  omega

/-- Concrete instance of C1 on a three-element identifier list. -/
theorem upload_chunking_partitions_witness :
    (pyChunks HERE_FEATURE_IDS_CHUNK_SIZE ["a", "b", "c"]).length = 1
    ∧ (pyChunks HERE_FEATURE_IDS_CHUNK_SIZE ["a", "b", "c"]).flatten = ["a", "b", "c"] := by
  have h := upload_chunking_partitions ["a", "b", "c"]
  exact ⟨h.1, h.2.2.2⟩

/-- C4: when the lookup of the existing layer succeeds, `_get_here_iml`
returns exactly the handle obtained from the lookup and never calls
`IML.new`. -/
theorem lookup_ok_no_creation (env : Env) (iml : IML)
    (hc : env.credsResult = Except.ok ())
    (hl : env.lookupResult = Except.ok iml) :
    (get_here_iml env).2 = Outcome.ok iml
    ∧ createCount (get_here_iml env).1 = 0 := by
  have hg : get_here_iml env = ([Event.lookupCall], Outcome.ok iml) := by
    unfold get_here_iml
    rw [hc, hl]
  rw [hg]
  exact ⟨rfl, rfl⟩

/-- Concrete instance of C4. -/
theorem lookup_ok_no_creation_witness :
    (get_here_iml envBase).2 = Outcome.ok ⟨0⟩
    ∧ createCount (get_here_iml envBase).1 = 0 :=
  lookup_ok_no_creation envBase ⟨0⟩ rfl rfl

/-- C5: when the lookup raises (for any exception), `_get_here_iml` calls
`IML.new` exactly once, and if the creation also raises it exits the process
with the remote error message instead of returning a handle. -/
theorem lookup_fail_creates_once_fatal (env : Env) (e : String)
    (hc : env.credsResult = Except.ok ())
    (hl : env.lookupResult = Except.error e) :
    createCount (get_here_iml env).1 = 1
    ∧ (∀ msg, env.createResult = Except.error msg →
        (get_here_iml env).2
          = Outcome.sysExit ("[ERROR]: HERE returned the following error: " ++ msg)) := by
  cases hcr : env.createResult with
  | ok iml2 =>
    have hg : get_here_iml env = ([Event.lookupCall, Event.createCall], Outcome.ok iml2) := by
      unfold get_here_iml
      rw [hc, hl, hcr]
    rw [hg]
    refine ⟨rfl, ?_⟩
    intro msg hmsg
    exact absurd hmsg (by simp)
  | error m =>
    have hg : get_here_iml env
        = ([Event.lookupCall, Event.createCall],
           Outcome.sysExit ("[ERROR]: HERE returned the following error: " ++ m)) := by
      unfold get_here_iml
      rw [hc, hl, hcr]
    rw [hg]
    refine ⟨rfl, ?_⟩
    intro msg hmsg
    injection hmsg with h
    rw [h]

/-- Concrete instance of C5: lookup and creation both fail. -/
theorem lookup_fail_creates_once_fatal_witness :
    createCount (get_here_iml envCreateFail).1 = 1
    ∧ (get_here_iml envCreateFail).2
        = Outcome.sysExit ("[ERROR]: HERE returned the following error: " ++ "creation failed") := by
  have h := lookup_fail_creates_once_fatal envCreateFail "lookup failed" rfl rfl
  exact ⟨h.1, h.2 "creation failed" rfl⟩

/-- C2 counterexample: with a local file parsing to an EMPTY feature
collection, the write call IS invoked (with that empty collection), because a
parsed feature collection is a non-empty Python dict and hence truthy under
the `if geo_data:` test of line 128. -/
theorem empty_collection_still_written :
    envBase.file = FileOutcome.parsed (fcJson [])
    ∧ writeCalls (upload_geo_data envBase false).1 = [fcJson []] :=
  ⟨rfl, rfl⟩

/-- C2 (amended): the write call is skipped exactly when the parsed value is
falsy as a Python object; any parsed feature collection (with or without
features) is truthy, so the write call is then invoked exactly once with the
entire parsed collection. -/
theorem write_call_truthiness (env : Env) (iml : IML)
    (hc : env.credsResult = Except.ok ())
    (hl : env.lookupResult = Except.ok iml) :
    (∀ fs, env.file = FileOutcome.parsed (fcJson fs) →
        writeCalls (upload_geo_data env false).1 = [fcJson fs])
    ∧ (∀ v, env.file = FileOutcome.parsed v → pyTruthy v = false →
        writeCalls (upload_geo_data env false).1 = []) := by
  constructor
  · intro fs hf
    rw [upload_norefresh_decompose env iml hc hl, writeCalls_append,
      uploadPhase_parsed_truthy env (fcJson fs) hf rfl]
    rfl
  · intro v hf ht
    rw [upload_norefresh_decompose env iml hc hl, writeCalls_append,
      uploadPhase_parsed_falsy env v hf ht]
    rfl

/-- Concrete instance of amended C2: a falsy parsed value skips the write. -/
theorem write_call_truthiness_witness :
    writeCalls (upload_geo_data envFalsy false).1 = [] :=
  (write_call_truthiness envFalsy ⟨0⟩ rfl rfl).2 Json.null rfl rfl

/-- C3 counterexample: with the local file absent, `upload_geo_data` does not
skip silently; the `FileNotFoundError` from line 125 propagates out. -/
theorem absent_file_raises :
    envAbsent.file = FileOutcome.absent
    ∧ (upload_geo_data envAbsent false).2 = Outcome.raised PyErr.fileNotFound :=
  ⟨rfl, rfl⟩

/-- C3 (amended): if the local file is absent or empty, no write call is
issued, but the run does not end silently: the open or parse error propagates
out of `upload_geo_data` as an unhandled exception. -/
theorem missing_file_no_write_raises (env : Env) (iml : IML)
    (hc : env.credsResult = Except.ok ())
    (hl : env.lookupResult = Except.ok iml) :
    (env.file = FileOutcome.absent →
        (upload_geo_data env false).2 = Outcome.raised PyErr.fileNotFound
        ∧ writeCalls (upload_geo_data env false).1 = [])
    ∧ (env.file = FileOutcome.unparseable →
        (upload_geo_data env false).2 = Outcome.raised PyErr.jsonDecodeError
        ∧ writeCalls (upload_geo_data env false).1 = []) := by
  constructor
  · intro hf
    rw [upload_norefresh_decompose env iml hc hl, uploadPhase_absent env hf]
    exact ⟨rfl, rfl⟩
  · intro hf
    rw [upload_norefresh_decompose env iml hc hl, uploadPhase_unparseable env hf]
    exact ⟨rfl, rfl⟩

/-- Concrete instance of amended C3: absent file, raised error, no write. -/
theorem missing_file_no_write_raises_witness :
    (upload_geo_data envAbsent false).2 = Outcome.raised PyErr.fileNotFound
    ∧ writeCalls (upload_geo_data envAbsent false).1 = [] :=
  (missing_file_no_write_raises envAbsent ⟨0⟩ rfl rfl).1 rfl

/-- C6: with `refresh = False` the run issues no delete call and no search
call, whatever the environment (in particular whatever the remote feature
count). -/
theorem no_refresh_no_delete_no_search (env : Env) :
    deleteCalls (upload_geo_data env false).1 = []
    ∧ searchCount (upload_geo_data env false).1 = 0 := by
  unfold upload_geo_data
  rcases hg : get_here_iml env with ⟨t, r⟩
  have hd : deleteCalls t = [] := by
    have h := deleteCalls_get_here_iml env
    rw [hg] at h
    exact h
  have hs : searchCount t = 0 := by
    have h := searchCount_get_here_iml env
    rw [hg] at h
    exact h
  cases r with
  | sysExit m => exact ⟨hd, hs⟩
  | raised e => exact ⟨hd, hs⟩
  | ok a =>
    constructor
    · show deleteCalls (t ++ (uploadPhase env).1) = []
      rw [deleteCalls_append, hd, deleteCalls_uploadPhase]
      rfl
    · show searchCount (t ++ (uploadPhase env).1) = 0
      rw [searchCount_append, hs, searchCount_uploadPhase]

/-- The upload phase always attempts to open the local file. -/
theorem openFile_mem_uploadPhase (env : Env) :
    Event.openFileCall ∈ (uploadPhase env).1 := by
  unfold uploadPhase
  cases hf : env.file with
  | absent => exact List.mem_singleton.mpr rfl
  | unparseable => exact List.mem_singleton.mpr rfl
  | parsed v =>
    cases hb : pyTruthy v
    · simp only [hb, Bool.false_eq_true, if_false]
      exact List.mem_singleton.mpr rfl
    · simp only [hb, if_true]
      cases hw : env.writeResult v <;> exact List.mem_cons_self _ _

/-- C7: with `refresh = True` and an empty remote search result, the batch
list is empty so no delete call is issued, and the run still proceeds to open
the local file and, when it parses to a truthy value, to issue the write. -/
theorem refresh_empty_remote_no_deletes (env : Env) (iml : IML)
    (hc : env.credsResult = Except.ok ())
    (hl : env.lookupResult = Except.ok iml)
    (hs : env.searchResult = Except.ok []) :
    deleteCalls (upload_geo_data env true).1 = []
    ∧ Event.openFileCall ∈ (upload_geo_data env true).1
    ∧ (∀ v, env.file = FileOutcome.parsed v → pyTruthy v = true →
        writeCalls (upload_geo_data env true).1 = [v]) := by
  have hdel : ∀ c ∈ pyChunks HERE_FEATURE_IDS_CHUNK_SIZE (([] : List Feature).map Feature.id),
      env.deleteResult c = Except.ok () := by
    intro c hmem
    exact absurd hmem (List.not_mem_nil c)
  have hdec := upload_refresh_decompose env iml [] hc hl hs hdel
  rw [hdec]
  refine ⟨?_, ?_, ?_⟩
  · exact deleteCalls_uploadPhase env
  · exact List.mem_cons_of_mem _ (List.mem_cons_of_mem _ (openFile_mem_uploadPhase env))
  · intro v hf ht
    show writeCalls (uploadPhase env).1 = [v]
    rw [uploadPhase_parsed_truthy env v hf ht]
    rfl

/-- Concrete instance of C7: empty remote layer, truthy local collection. -/
theorem refresh_empty_remote_no_deletes_witness :
    deleteCalls (upload_geo_data envBase true).1 = []
    ∧ writeCalls (upload_geo_data envBase true).1 = [fcJson []] := by
  have h := refresh_empty_remote_no_deletes envBase ⟨0⟩ rfl rfl rfl
  exact ⟨h.1, h.2.2 (fcJson []) rfl rfl⟩

/-- `envBase` with a local file parsing to a collection of three features. -/
def envThree : Env :=
  { envBase with
    file := FileOutcome.parsed (fcJson
      [Json.obj [("type", Json.str "Feature"), ("id", Json.str "1")],
       Json.obj [("type", Json.str "Feature"), ("id", Json.str "2")],
       Json.obj [("type", Json.str "Feature"), ("id", Json.str "3")]]) }

/-- C8: with a local file parsing to a collection of exactly three features,
the run issues the write call exactly once, carrying the entire parsed
collection (hence the three features in file order with their ids). -/
theorem three_features_written_once (env : Env) (iml : IML) (f1 f2 f3 : Json)
    (hc : env.credsResult = Except.ok ())
    (hl : env.lookupResult = Except.ok iml)
    (hf : env.file = FileOutcome.parsed (fcJson [f1, f2, f3])) :
    writeCalls (upload_geo_data env false).1 = [fcJson [f1, f2, f3]] := by
  rw [upload_norefresh_decompose env iml hc hl, writeCalls_append,
    uploadPhase_parsed_truthy env (fcJson [f1, f2, f3]) hf rfl]
  rfl

/-- Concrete instance of C8 on three well-formed features. -/
theorem three_features_written_once_witness :
    writeCalls (upload_geo_data envThree false).1
      = [fcJson
          [Json.obj [("type", Json.str "Feature"), ("id", Json.str "1")],
           Json.obj [("type", Json.str "Feature"), ("id", Json.str "2")],
           Json.obj [("type", Json.str "Feature"), ("id", Json.str "3")]]] :=
  three_features_written_once envThree ⟨0⟩
    (Json.obj [("type", Json.str "Feature"), ("id", Json.str "1")])
    (Json.obj [("type", Json.str "Feature"), ("id", Json.str "2")])
    (Json.obj [("type", Json.str "Feature"), ("id", Json.str "3")])
    rfl rfl rfl

/-- `envBase` with two remote features whose delete call fails. -/
def envDeleteFail : Env :=
  { envBase with
    searchResult := Except.ok [⟨"a", Json.null⟩, ⟨"b", Json.null⟩]
    deleteResult := fun _ => Except.error (PyErr.remoteError "delete failed") }

/-- C9: delete batches are issued sequentially in order; if the delete of a
batch fails, the failure is not caught inside `upload_geo_data`: it
propagates out, and no further delete call, no file open and no write call
happen after it. -/
theorem delete_failure_propagates (env : Env) (iml : IML) (fs : List Feature)
    (pre : List (List String)) (c : List String) (post : List (List String)) (err : PyErr)
    (hc : env.credsResult = Except.ok ())
    (hl : env.lookupResult = Except.ok iml)
    (hs : env.searchResult = Except.ok fs)
    (hchunks : pyChunks HERE_FEATURE_IDS_CHUNK_SIZE (fs.map Feature.id) = pre ++ c :: post)
    (hpre : ∀ x ∈ pre, env.deleteResult x = Except.ok ())
    (herr : env.deleteResult c = Except.error err) :
    deleteCalls (upload_geo_data env true).1 = pre ++ [c]
    ∧ (upload_geo_data env true).2 = Outcome.raised err
    ∧ writeCalls (upload_geo_data env true).1 = []
    ∧ Event.openFileCall ∉ (upload_geo_data env true).1 := by
  have hdec := upload_refresh_fail_decompose env iml fs pre c post err hc hl hs hchunks hpre herr
  rw [hdec]
  refine ⟨?_, rfl, ?_, ?_⟩
  · show deleteCalls (pre.map Event.deleteCall ++ [Event.deleteCall c]) = pre ++ [c]
    rw [deleteCalls_append, deleteCalls_map_deleteCall]
    rfl
  · show writeCalls (pre.map Event.deleteCall ++ [Event.deleteCall c]) = []
    rw [writeCalls_append, writeCalls_map_deleteCall]
    rfl
  · intro hmem
    simp only [List.mem_cons, List.mem_append, List.mem_map, List.mem_singleton,
      List.not_mem_nil] at hmem
    rcases hmem with h | h | h
    · exact Event.noConfusion h
    · exact Event.noConfusion h
    · rcases h with ⟨x, _, h⟩ | h
      · exact Event.noConfusion h
      · rcases h with h | h
        · exact Event.noConfusion h
        · exact h.elim

/-- Concrete instance of C9: the first (and only) delete batch fails. -/
theorem delete_failure_propagates_witness :
    deleteCalls (upload_geo_data envDeleteFail true).1 = [["a", "b"]]
    ∧ (upload_geo_data envDeleteFail true).2
        = Outcome.raised (PyErr.remoteError "delete failed") := by
  have h := delete_failure_propagates envDeleteFail ⟨0⟩
    [⟨"a", Json.null⟩, ⟨"b", Json.null⟩] [] ["a", "b"] []
    (PyErr.remoteError "delete failed") rfl rfl rfl rfl
    (fun x hx => absurd hx (List.not_mem_nil x)) rfl
  exact ⟨h.1, h.2.1⟩

/-- `envBase` with one remote feature and an absent local file. -/
def envPurgeThenAbsent : Env :=
  { envBase with
    searchResult := Except.ok [⟨"a", Json.null⟩]
    file := FileOutcome.absent }

/-- C10: with `refresh = True` every delete call happens before the local
file is opened: when all deletes succeed and opening or parsing the file then
fails, the trace shows the full purge (one delete per chunk, in order)
strictly before the file open, and the run ends with the raised error. -/
theorem deletes_precede_file_open (env : Env) (iml : IML) (fs : List Feature)
    (hc : env.credsResult = Except.ok ())
    (hl : env.lookupResult = Except.ok iml)
    (hs : env.searchResult = Except.ok fs)
    (hdel : ∀ c ∈ pyChunks HERE_FEATURE_IDS_CHUNK_SIZE (fs.map Feature.id),
        env.deleteResult c = Except.ok ())
    (hfile : env.file = FileOutcome.absent ∨ env.file = FileOutcome.unparseable) :
    (upload_geo_data env true).1
      = Event.lookupCall :: Event.searchCall
          :: ((pyChunks HERE_FEATURE_IDS_CHUNK_SIZE (fs.map Feature.id)).map Event.deleteCall
              ++ [Event.openFileCall])
    ∧ (∃ e, (upload_geo_data env true).2 = Outcome.raised e) := by
  have hdec := upload_refresh_decompose env iml fs hc hl hs hdel
  rcases hfile with hf | hf
  · rw [hdec, uploadPhase_absent env hf]
    exact ⟨rfl, ⟨PyErr.fileNotFound, rfl⟩⟩
  · rw [hdec, uploadPhase_unparseable env hf]
    exact ⟨rfl, ⟨PyErr.jsonDecodeError, rfl⟩⟩

/-- Concrete instance of C10: one remote feature purged, then the absent file
makes the open raise, with the purge already done. -/
theorem deletes_precede_file_open_witness :
    (upload_geo_data envPurgeThenAbsent true).1
      = Event.lookupCall :: Event.searchCall
          :: ([[ "a" ]].map Event.deleteCall ++ [Event.openFileCall])
    ∧ (∃ e, (upload_geo_data envPurgeThenAbsent true).2 = Outcome.raised e) := by
  have h := deletes_precede_file_open envPurgeThenAbsent ⟨0⟩ [⟨"a", Json.null⟩]
    rfl rfl rfl (fun c hmem => rfl) (Or.inl rfl)
  exact ⟨h.1, h.2⟩
